import Mathlib

/-!
Verification of the DreamPlay claim-signing endpoint
(`netlify/functions/sign-claim.js`, present in two near-identical variants in
the repository; both agree on everything modelled here).

The handler is embedded shallowly:
* External collaborators (the blockchain RPC node, the `ethers` library's
  address validator, keccak digest `ethers.utils.id`, and the EIP-712 signing
  primitive `wallet._signTypedData`) are passed in as explicit function
  parameters or records of functions; the handler's own control flow, data
  construction and enumeration are translated from the source line by line.
* JavaScript numbers that the handler manipulates are modelled as `Option Int`
  where `none` stands for NaN (the result of `Number(x)` on an absent or
  non-numeric value); all values the claims exercise are integers.
* Network calls made by the handler (receipt fetch, contract `name()` read,
  network id read) are recorded in an explicit trace, in program order, so
  temporal claims about "before any network call" are statable.
-/

namespace SignClaim

/-- Network calls the handler can await, in the order the source awaits them:
`provider.getTransactionReceipt(txHash)`, `nft.name()`, `provider.getNetwork()`.
`wallet.getAddress()` and `_signTypedData` are local key operations, not
network calls. -/
inductive NetCall where
  | getReceipt (txHash : String)
  | nameRead
  | getNetwork
deriving DecidableEq, Repr

/-- Environment configuration fields the signing logic reads (`process.env`).
Required fields already validated by the time the modelled flow begins are
omitted except where their values matter (`STORE_ADDR`, `CONTRACT_ADDR`).
`TIER_OFFSET` and `MIN_TIER` are env strings converted with
`Number(TIER_OFFSET || 0)` / `Number(MIN_TIER || 1)`; they are modelled as the
already-converted integer, `none` when unset. -/
structure Env where
  STORE_ADDR : String
  CONTRACT_ADDR : String
  DOMAIN_NAME : Option String
  DOMAIN_VERSION : Option String
  TIER_OFFSET : Option Int
  MIN_TIER : Option Int
deriving Repr

/-- Request body fields destructured by the handler:
`let ... = body` destructuring (the body field named `to` in the source is
`toAddr` here, `to` being a reserved token in Lean). `tierNum` is the value
of `Number(body.tier)`: `none` when `body.tier` is absent or non-numeric
(i.e. `Number` gives NaN), `some n` for a finite integer value. `tokenURI`
is `some s` exactly when the body carried a string there
(`typeof tokenURI === string`). -/
structure Request where
  orderId : Option String
  txHash : Option String
  toAddr : Option String
  tierNum : Option Int
  tokenURI : Option String
deriving Repr

/-- Transaction log entry as the receipt reports it: the emitting contract
address plus the (abstracted) topic/data payload the ABI decoder reads. -/
structure Log where
  address : String
  data : String
deriving DecidableEq, Repr

/-- Result of `iface.parseLog(lg)` when decoding succeeds: the event name and
the `Purchased` arguments the handler reads (`args.buyer`,
`Number(args.skuId)`). -/
structure ParsedEvent where
  name : String
  buyer : String
  skuId : Int
deriving DecidableEq, Repr

/-- Transaction receipt: status (1 = success) and emitted logs. -/
structure Receipt where
  status : Int
  logs : List Log
deriving DecidableEq, Repr

/-- The blockchain RPC collaborator: receipt lookup
(`none` = null receipt), the ABI event decoder (`none` = `parseLog` threw),
the NFT contract's `name()` (`none` = the read threw), and the network's
chain id. -/
structure Chain where
  getTransactionReceipt : String → Option Receipt
  parseLog : Log → Option ParsedEvent
  name : Option String
  chainId : Int

/-- An EIP-712 signing domain as the source constructs it. -/
structure Domain where
  name : String
  version : String
  chainId : Int
  verifyingContract : String
deriving DecidableEq, Repr

/-- One field of a typed-data struct definition. -/
structure FieldDef where
  name : String
  type : String
deriving DecidableEq, Repr

/-- A candidate type layout: the `includeTokenURI` tag and the `Claim` struct
field list, exactly as the source writes them. -/
structure Layout where
  includeTokenURI : Bool
  types : List FieldDef
deriving DecidableEq, Repr

/-- The value object passed to `_signTypedData`: `tokenURI` is carried only by
the extended layout (possibly still absent when the caller sent none). The
`tier` field is `Number(tier)` (`none` = NaN). -/
structure Value where
  toAddr : String
  tier : Option Int
  orderHash : String
  tokenURI : Option String
deriving DecidableEq, Repr

/-- Split signature components returned by `splitSignature`. -/
structure Sig where
  v : Int
  r : String
  s : String
deriving DecidableEq, Repr

/-- The wallet collaborator: its address and the EIP-712 signing primitive;
`none` models `_signTypedData` throwing on a malformed schema/value. -/
structure Signer where
  address : String
  sign : Domain → Layout → Value → Option Sig

/-- One entry of the response's `candidates` array, field for field as the
source pushes it. -/
structure Candidate where
  v : Int
  r : String
  s : String
  orderHash : String
  tier : Option Int
  domainName : String
  domainVersion : String
  chainId : Int
  signerAddress : String
  includeTokenURI : Bool
deriving DecidableEq, Repr

/-- The handler's JSON outcome: a success body `\x7b candidates, buyer, skuId \x7d`
(HTTP 200) or an error body with its HTTP status code. -/
inductive Response where
  | ok (candidates : List Candidate) (buyer : Option String) (skuId : Option Int)
  | error (code : String) (status : Int)
deriving DecidableEq, Repr

/-- JavaScript truthiness of an optional string: `undefined` and the empty
string are falsy (used for `if (txHash)`, `if (!orderId)`, `X && ...`). -/
def nonEmptyOpt (o : Option String) : Option String :=
  match o with
  | none => none
  | some s => if s = "" then none else some s

/-- JavaScript `String.prototype.trim`: strips leading and trailing
whitespace. Written by structural recursion over the character list so that
concrete instances evaluate inside the kernel. -/
def jsTrim (s : String) : String :=
  ⟨((s.data.dropWhile Char.isWhitespace).reverse.dropWhile Char.isWhitespace).reverse⟩

/-- JavaScript `String.prototype.toLowerCase` on the address alphabet:
character-wise lowercasing, written over the character list so that concrete
instances evaluate inside the kernel. -/
def jsLower (s : String) : String :=
  ⟨s.data.map Char.toLower⟩

/-- Evaluates `(X && X.trim()) || null` for an env string `X`: the trimmed
value when `X` is set and its trim is non-empty, otherwise `none`. -/
def trimOpt (o : Option String) : Option String :=
  match nonEmptyOpt o with
  | none => none
  | some s => if jsTrim s = "" then none else some (jsTrim s)

/-- The configured domain-version override after truthiness and trimming:
`const envVersion = (DOMAIN_VERSION && DOMAIN_VERSION.trim()) || null`. -/
def envVersion (env : Env) : Option String :=
  trimOpt env.DOMAIN_VERSION

/-- Order-preserving de-duplication, keeping the first occurrence: the
behaviour of `Array.from(new Set(xs))`. `seen` holds values already kept. -/
def dedupAux (seen : List String) : List String → List String
  | [] => []
  | x :: xs => if x ∈ seen then dedupAux seen xs else x :: dedupAux (x :: seen) xs

/-- Behaviour of `Array.from(new Set(xs))` on a string array. -/
def dedup (xs : List String) : List String :=
  dedupAux [] xs

/-- Candidate domain versions:
`Array.from(new Set([envVersion, '1', '0', '2'].filter(Boolean)))`. -/
def versionList (env : Env) : List String :=
  dedup ((envVersion env).toList ++ ["1", "0", "2"])

/-- The short `Claim` layout `(to, tier, orderHash)`. -/
def shortLayout : Layout :=
  { includeTokenURI := false
    types := [⟨"to", "address"⟩, ⟨"tier", "uint8"⟩, ⟨"orderHash", "bytes32"⟩] }

/-- The extended `Claim` layout `(to, tier, orderHash, tokenURI)`. -/
def extendedLayout : Layout :=
  { includeTokenURI := true
    types := [⟨"to", "address"⟩, ⟨"tier", "uint8"⟩, ⟨"orderHash", "bytes32"⟩,
              ⟨"tokenURI", "string"⟩] }

/-- Candidate type layouts in attempt order: the source's
`withTokenURI ? [extended, short] : [short, extended]` conditional. -/
def layoutsFor (withTokenURI : Bool) : List Layout :=
  if withTokenURI then [extendedLayout, shortLayout] else [shortLayout, extendedLayout]

/-- Scan of the receipt's logs for a `Purchased` event from the store contract:
skip logs from other addresses (case-insensitive compare), swallow decode
failures, stop at the first successfully decoded event named `Purchased`. -/
def findPurchased (parseLog : Log → Option ParsedEvent) (storeAddr : String) :
    List Log → Option ParsedEvent
  | [] => none
  | lg :: rest =>
    if jsLower lg.address ≠ jsLower storeAddr then
      findPurchased parseLog storeAddr rest
    else
      match parseLog lg with
      | some ev =>
        if ev.name = "Purchased" then some ev else findPurchased parseLog storeAddr rest
      | none => findPurchased parseLog storeAddr rest

/-- Tier mapping of the verified-purchase path, from the source:
`let t = Number(tier); if (!Number.isFinite(t) || t <= 0) t = Number(skuId);
if (!Number.isFinite(t)) t = 1; t = t + envOffset; if (t < minTier) t = minTier`.
`tierNum` is `Number(tier)` with `none` = NaN; `skuId` is the event's sku,
always a finite integer here, so the second fallback's NaN test is the
`Option.getD` default. -/
def resolveTier (tierNum : Option Int) (skuId : Int) (envOffset minTier : Int) : Int :=
  let t : Option Int :=
    match tierNum with
    | none => some skuId
    | some h => if h ≤ 0 then some skuId else some h
  let t2 : Int := t.getD 1
  let t3 : Int := t2 + envOffset
  if t3 < minTier then minTier else t3

/-- Effective signing-domain name:
`(DOMAIN_NAME && DOMAIN_NAME.trim()) || tokenName` where `tokenName` is the
on-chain `name()` with the fixed fallback constant. -/
def effDomainName (env : Env) (chain : Chain) : String :=
  (trimOpt env.DOMAIN_NAME).getD (chain.name.getD "DreamPlay Membership")

/-- The layout switch `typeof tokenURI === string && tokenURI.length > 0`. -/
def uriPresent (tokenURI : Option String) : Bool :=
  match tokenURI with
  | some s => s.length > 0
  | none => false

/-- One signing attempt for a (domain version, layout) combination: builds the
domain and value objects as in the loop body and invokes `_signTypedData`;
a throw yields `none`, success yields the pushed candidate record. -/
def attempt (env : Env) (chain : Chain) (signer : Signer) (toAddr : String)
    (tierNum : Option Int) (orderHash : String) (tokenURI : Option String)
    (domainName : String) (v : String) (layout : Layout) : Option Candidate :=
  let domain : Domain :=
    { name := domainName, version := v, chainId := chain.chainId
      verifyingContract := env.CONTRACT_ADDR }
  let value : Value :=
    { toAddr := toAddr, tier := tierNum, orderHash := orderHash
      tokenURI := if layout.includeTokenURI then tokenURI else none }
  (signer.sign domain layout value).map fun sig =>
    { v := sig.v, r := sig.r, s := sig.s, orderHash := orderHash
      tier := tierNum, domainName := domainName, domainVersion := v
      chainId := chain.chainId, signerAddress := signer.address
      includeTokenURI := layout.includeTokenURI }

/-- The versions × layouts double loop of the source, collecting the pushes:
`for (const v of versions) for (const layout of layouts) ... candidates.push(...)`,
with `orderHash = ethers.utils.id(String(orderId))` and the domain name from
`effDomainName`. -/
def collectCandidates (env : Env) (chain : Chain) (signer : Signer)
    (idFn : String → String) (tokenURI : Option String) (toAddr : String)
    (tierNum : Option Int) (oid : String) : List Candidate :=
  (versionList env).flatMap fun v =>
    (layoutsFor (uriPresent tokenURI)).filterMap fun layout =>
      attempt env chain signer toAddr tierNum (idFn oid) tokenURI
        (effDomainName env chain) v layout

/-- The post-verification tail of the handler, from `if (!orderId)` to the
response: domain-name resolution (on-chain `name()` with fallback constant
and env override), version and layout enumeration, `orderHash = id(orderId)`,
the versions × layouts double loop collecting successes, and the
`no_signature_candidates` failure when none succeed. `idFn` is
`ethers.utils.id` (keccak of the UTF-8 string). `trace0` holds the network
calls already made; the `name()` and `getNetwork()` awaits are appended. -/
def signPhase (env : Env) (chain : Chain) (signer : Signer) (idFn : String → String)
    (tokenURI : Option String) (toAddr : String) (tierNum : Option Int)
    (orderId : Option String) (buyer : Option String) (skuId : Option Int)
    (trace0 : List NetCall) : Response × List NetCall :=
  match orderId with
  | none => (.error "Provide orderId or txHash" 400, trace0)
  | some oid =>
    let trace1 := trace0 ++ [NetCall.nameRead, NetCall.getNetwork]
    let candidates := collectCandidates env chain signer idFn tokenURI toAddr tierNum oid
    if candidates.length = 0 then (.error "no_signature_candidates" 500, trace1)
    else (.ok candidates buyer skuId, trace1)

/-- The request handler from body destructuring onward (method routing and the
required-env check are upstream plumbing): `to` validation, the optional
purchase-verification branch with its tier mapping and `orderId = txHash`
overwrite, then the signing tail. Returns the response and the trace of
network calls awaited, in order. `isAddress` is `ethers.utils.isAddress`. -/
def handler (env : Env) (chain : Chain) (signer : Signer) (isAddress : String → Bool)
    (idFn : String → String) (req : Request) : Response × List NetCall :=
  match req.toAddr with
  | none => (.error "Invalid payload. Expect \x7bto,...\x7d" 400, [])
  | some toAddr =>
    if toAddr = "" then (.error "Invalid payload. Expect \x7bto,...\x7d" 400, [])
    else if isAddress toAddr = false then (.error "Invalid address" 400, [])
    else
      match nonEmptyOpt req.txHash with
      | some tx =>
        let trace0 := [NetCall.getReceipt tx]
        match chain.getTransactionReceipt tx with
        | none => (.error "Invalid or failed transaction" 400, trace0)
        | some receipt =>
          if receipt.status ≠ 1 then (.error "Invalid or failed transaction" 400, trace0)
          else
            match findPurchased chain.parseLog env.STORE_ADDR receipt.logs with
            | none => (.error "No Purchased event found for this tx" 400, trace0)
            | some ev =>
              if jsLower ev.buyer ≠ jsLower toAddr then
                (.error "Wallet mismatch: tx buyer != connected wallet" 400, trace0)
              else
                let tier := resolveTier req.tierNum ev.skuId
                  (env.TIER_OFFSET.getD 0) (env.MIN_TIER.getD 1)
                signPhase env chain signer idFn req.tokenURI toAddr (some tier)
                  (some tx) (some ev.buyer) (some ev.skuId) trace0
      | none =>
        signPhase env chain signer idFn req.tokenURI toAddr req.tierNum
          (nonEmptyOpt req.orderId) none none []

/-- Candidates carried by a response (empty for errors). -/
def responseCandidates : Response → List Candidate
  | .ok cs _ _ => cs
  | .error _ _ => []

/-- Whether a response is the success shape. -/
def isOk : Response → Bool
  | .ok _ _ _ => true
  | .error _ _ => false


/-! Concrete fixtures used by witnesses and counterexamples. -/

/-- Fixed split signature returned by the always-succeeding signer fixture. -/
def sampleSig : Sig := { v := 27, r := "0xr", s := "0xs" }

/-- Signer fixture whose `_signTypedData` succeeds on every combination. -/
def allSigner : Signer := { address := "0xsigner", sign := fun _ _ _ => some sampleSig }

/-- Signer fixture whose `_signTypedData` throws on every combination. -/
def noSigner : Signer := { address := "0xsigner", sign := fun _ _ _ => none }

/-- Minimal configuration: required addresses set, all overrides unset. -/
def baseEnv : Env :=
  { STORE_ADDR := "0xStore", CONTRACT_ADDR := "0xNFT", DOMAIN_NAME := none
    DOMAIN_VERSION := none, TIER_OFFSET := none, MIN_TIER := none }

/-- A store-contract log that the fixture decoder recognises. -/
def purchasedLog : Log := { address := "0xstore", data := "purchase" }

/-- A decoded `Purchased` event: buyer `0xBuyer`, sku 5. -/
def sampleEvent : ParsedEvent := { name := "Purchased", buyer := "0xBuyer", skuId := 5 }

/-- Chain fixture: tx `0xtx` has a successful receipt with one decodable
`Purchased` log; `name()` succeeds; chain id 56. -/
def baseChain : Chain :=
  { getTransactionReceipt := fun h =>
      if h = "0xtx" then some { status := 1, logs := [purchasedLog] } else none
    parseLog := fun lg => if lg.data = "purchase" then some sampleEvent else none
    name := some "DreamPlay Membership", chainId := 56 }

/-- Chain fixture where every receipt lookup returns null. -/
def chainNoReceipt : Chain :=
  { getTransactionReceipt := fun _ => none, parseLog := fun _ => none
    name := none, chainId := 56 }

/-- Chain fixture where every receipt has failed status 0. -/
def chainFailedTx : Chain :=
  { getTransactionReceipt := fun _ => some { status := 0, logs := [] }
    parseLog := fun _ => none, name := none, chainId := 56 }

/-- Chain fixture like `baseChain` but whose purchase event names a different
buyer, `0xEve`. -/
def chainWrongBuyer : Chain :=
  { baseChain with
    parseLog := fun lg =>
      if lg.data = "purchase" then some { name := "Purchased", buyer := "0xEve", skuId := 5 }
      else none }

/-- Address validator fixture accepting every string. -/
def allAddr : String → Bool := fun _ => true

/-- Keccak fixture: an injective stand-in digest. -/
def hashFn : String → String := fun s => "keccak:" ++ s

/-- Request fixture: orderId only, numeric tier hint, no token URI. -/
def reqNoURI : Request :=
  { orderId := some "ord1", txHash := none, toAddr := some "0xbuyer"
    tierNum := some 3, tokenURI := none }

/-- Request fixture: txHash only. -/
def reqTx : Request :=
  { orderId := none, txHash := some "0xtx", toAddr := some "0xbuyer"
    tierNum := none, tokenURI := none }

/-- Request fixture: txHash together with a caller-supplied orderId that the
txHash must overwrite. -/
def reqTxWithOrder : Request :=
  { orderId := some "ignored", txHash := some "0xtx", toAddr := some "0xbuyer"
    tierNum := none, tokenURI := none }

/-- Request fixture: no txHash and no usable tier. -/
def reqNoTier : Request :=
  { orderId := some "ord1", txHash := none, toAddr := some "0xbuyer"
    tierNum := none, tokenURI := none }

/-- Request fixture: a recipient string the strict validator rejects. -/
def reqBadAddr : Request :=
  { orderId := some "ord1", txHash := none, toAddr := some "bogus"
    tierNum := some 1, tokenURI := none }

/-- Address validator fixture accepting exactly one well-formed address. -/
def oneAddr : String → Bool := fun s => s = "0xbuyer"

/-- The successful receipt `baseChain` serves for `0xtx`. -/
def okReceipt : Receipt := { status := 1, logs := [purchasedLog] }

/-- The failed receipt `chainFailedTx` serves. -/
def failedReceipt : Receipt := { status := 0, logs := [] }

/-- The event `chainWrongBuyer` decodes: a different buyer, `0xEve`. -/
def wrongEvent : ParsedEvent := { name := "Purchased", buyer := "0xEve", skuId := 5 }

/-! Helper lemmas about the embedded definitions, shared by the claim
theorems below. -/

/-- Fields a successful signing attempt copies unchanged into its candidate. -/
theorem attempt_fields {env : Env} {chain : Chain} {signer : Signer} {toAddr : String}
    {tierNum : Option Int} {orderHash : String} {tokenURI : Option String}
    {domainName v : String} {layout : Layout} {c : Candidate}
    (h : attempt env chain signer toAddr tierNum orderHash tokenURI domainName v layout
      = some c) :
    c.orderHash = orderHash ∧ c.tier = tierNum ∧ c.domainName = domainName ∧
    c.chainId = chain.chainId ∧ c.signerAddress = signer.address ∧
    c.domainVersion = v ∧ c.includeTokenURI = layout.includeTokenURI := by
  simp only [attempt] at h
  obtain ⟨sig, hs, hc⟩ := Option.map_eq_some'.mp h
  cases hc
  exact ⟨rfl, rfl, rfl, rfl, rfl, rfl, rfl⟩

/-- Both layout lists have two entries. -/
theorem layoutsFor_length (w : Bool) : (layoutsFor w).length = 2 := by
  cases w <;> rfl

/-- The version list is never empty: the fixed fallbacks are always there. -/
theorem versionList_ne_nil (env : Env) : versionList env ≠ [] := by
  unfold versionList dedup
  cases h : envVersion env <;> simp [dedupAux]

/-- Shared fields of every collected candidate. -/
theorem collectCandidates_mem {env : Env} {chain : Chain} {signer : Signer}
    {idFn : String → String} {tokenURI : Option String} {toAddr : String}
    {tierNum : Option Int} {oid : String} {c : Candidate}
    (h : c ∈ collectCandidates env chain signer idFn tokenURI toAddr tierNum oid) :
    c.orderHash = idFn oid ∧ c.tier = tierNum ∧ c.domainName = effDomainName env chain ∧
    c.chainId = chain.chainId ∧ c.signerAddress = signer.address := by
  unfold collectCandidates at h
  rw [List.mem_flatMap] at h
  obtain ⟨v, _, hin⟩ := h
  rw [List.mem_filterMap] at hin
  obtain ⟨layout, _, ha⟩ := hin
  obtain ⟨h1, h2, h3, h4, h5, _, _⟩ := attempt_fields ha
  exact ⟨h1, h2, h3, h4, h5⟩

/-- The collection is empty exactly when every combination's attempt fails. -/
theorem collectCandidates_eq_nil_iff (env : Env) (chain : Chain) (signer : Signer)
    (idFn : String → String) (tokenURI : Option String) (toAddr : String)
    (tierNum : Option Int) (oid : String) :
    collectCandidates env chain signer idFn tokenURI toAddr tierNum oid = [] ↔
      ∀ v ∈ versionList env, ∀ layout ∈ layoutsFor (uriPresent tokenURI),
        attempt env chain signer toAddr tierNum (idFn oid) tokenURI
          (effDomainName env chain) v layout = none := by
  unfold collectCandidates
  rw [List.flatMap_eq_nil_iff]
  constructor
  · intro h v hv layout hl
    have h2 := h v hv
    rw [List.filterMap_eq_nil_iff] at h2
    exact h2 layout hl
  · intro h v hv
    rw [List.filterMap_eq_nil_iff]
    exact fun layout hl => h v hv layout hl

/-- Every success of the double loop lands in the collection. -/
theorem collectCandidates_mem_of_attempt {env : Env} {chain : Chain} {signer : Signer}
    {idFn : String → String} {tokenURI : Option String} {toAddr : String}
    {tierNum : Option Int} {oid : String} {v : String} {layout : Layout} {c : Candidate}
    (hv : v ∈ versionList env) (hl : layout ∈ layoutsFor (uriPresent tokenURI))
    (ha : attempt env chain signer toAddr tierNum (idFn oid) tokenURI
      (effDomainName env chain) v layout = some c) :
    c ∈ collectCandidates env chain signer idFn tokenURI toAddr tierNum oid := by
  unfold collectCandidates
  rw [List.mem_flatMap]
  exact ⟨v, hv, List.mem_filterMap.mpr ⟨layout, hl, ha⟩⟩

/-- At most versions × 2 candidates are collected. -/
theorem collectCandidates_length_le (env : Env) (chain : Chain) (signer : Signer)
    (idFn : String → String) (tokenURI : Option String) (toAddr : String)
    (tierNum : Option Int) (oid : String) :
    (collectCandidates env chain signer idFn tokenURI toAddr tierNum oid).length ≤
      (versionList env).length * 2 := by
  unfold collectCandidates
  generalize versionList env = l
  induction l with
  | nil => simp
  | cons v l ih =>
    simp only [List.flatMap_cons, List.length_append, List.length_cons]
    have h1 := List.length_filterMap_le
      (fun layout => attempt env chain signer toAddr tierNum (idFn oid) tokenURI
        (effDomainName env chain) v layout)
      (layoutsFor (uriPresent tokenURI))
    rw [layoutsFor_length] at h1
    omega

/-- Evaluation of the signing tail once an order id is resolved. -/
theorem signPhase_some (env : Env) (chain : Chain) (signer : Signer)
    (idFn : String → String) (tokenURI : Option String) (toAddr : String)
    (tierNum : Option Int) (oid : String) (buyer : Option String) (skuId : Option Int)
    (trace0 : List NetCall) :
    signPhase env chain signer idFn tokenURI toAddr tierNum (some oid) buyer skuId trace0 =
      if (collectCandidates env chain signer idFn tokenURI toAddr tierNum oid).length = 0 then
        (.error "no_signature_candidates" 500, trace0 ++ [NetCall.nameRead, NetCall.getNetwork])
      else
        (.ok (collectCandidates env chain signer idFn tokenURI toAddr tierNum oid) buyer skuId,
          trace0 ++ [NetCall.nameRead, NetCall.getNetwork]) := rfl

/-- A success response of the signing tail is exactly the collection. -/
theorem signPhase_ok_collect {env : Env} {chain : Chain} {signer : Signer}
    {idFn : String → String} {tokenURI : Option String} {toAddr : String}
    {tierNum : Option Int} {orderId : Option String} {buyer : Option String}
    {skuId : Option Int} {trace0 : List NetCall} {cs : List Candidate}
    {b : Option String} {k : Option Int}
    (h : (signPhase env chain signer idFn tokenURI toAddr tierNum orderId buyer
      skuId trace0).fst = Response.ok cs b k) :
    ∃ oid, orderId = some oid ∧
      cs = collectCandidates env chain signer idFn tokenURI toAddr tierNum oid ∧
      b = buyer ∧ k = skuId := by
  cases orderId with
  | none => simp [signPhase] at h
  | some oid =>
    rw [signPhase_some] at h
    split at h
    · simp at h
    · simp only [Prod.fst] at h
      injection h with e1 e2 e3
      exact ⟨oid, rfl, e1.symm, e2.symm, e3.symm⟩

/-- Every success response of the handler carries a collection list. -/
theorem handler_ok_collect {env : Env} {chain : Chain} {signer : Signer}
    {isAddress : String → Bool} {idFn : String → String} {req : Request}
    {cs : List Candidate} {b : Option String} {k : Option Int}
    (h : (handler env chain signer isAddress idFn req).fst = Response.ok cs b k) :
    ∃ toAddr tierNum oid,
      cs = collectCandidates env chain signer idFn req.tokenURI toAddr tierNum oid := by
  unfold handler at h
  split at h
  · simp at h
  · split at h
    · simp at h
    · split at h
      · simp at h
      · split at h
        · split at h
          · simp at h
          · split at h
            · simp at h
            · split at h
              · simp at h
              · split at h
                · simp at h
                · obtain ⟨oid, _, hcs, _, _⟩ := signPhase_ok_collect h
                  exact ⟨_, _, oid, hcs⟩
        · obtain ⟨oid, _, hcs, _, _⟩ := signPhase_ok_collect h
          exact ⟨_, _, oid, hcs⟩

/-- An attempt fails exactly when the underlying signing call does, the domain
and value being the ones the loop body builds. -/
theorem attempt_eq_none_iff {env : Env} {chain : Chain} {signer : Signer} {toAddr : String}
    {tierNum : Option Int} {orderHash : String} {tokenURI : Option String}
    {domainName v : String} {layout : Layout} :
    attempt env chain signer toAddr tierNum orderHash tokenURI domainName v layout = none ↔
      signer.sign
        { name := domainName, version := v, chainId := chain.chainId
          verifyingContract := env.CONTRACT_ADDR } layout
        { toAddr := toAddr, tier := tierNum, orderHash := orderHash
          tokenURI := if layout.includeTokenURI then tokenURI else none } = none := by
  simp [attempt, Option.map_eq_none']

/-- With a signer that accepts every combination the collection is non-empty. -/
theorem collectCandidates_ne_nil (env : Env) (chain : Chain) (signer : Signer)
    (idFn : String → String) (tokenURI : Option String) (toAddr : String)
    (tierNum : Option Int) (oid : String)
    (hsig : ∀ d l vv, (signer.sign d l vv).isSome = true) :
    collectCandidates env chain signer idFn tokenURI toAddr tierNum oid ≠ [] := by
  intro hnil
  rw [collectCandidates_eq_nil_iff] at hnil
  obtain ⟨v, l2, hl⟩ : ∃ v l2, versionList env = v :: l2 := by
    cases h : versionList env with
    | nil => exact absurd h (versionList_ne_nil env)
    | cons a l2 => exact ⟨a, l2, rfl⟩
  have hmem : v ∈ versionList env := by
    rw [hl]
    exact List.mem_cons_self v l2
  have hsl : shortLayout ∈ layoutsFor (uriPresent tokenURI) := by
    cases uriPresent tokenURI <;> simp [layoutsFor]
  have hnone := attempt_eq_none_iff.mp (hnil v hmem shortLayout hsl)
  have hsome := hsig
    { name := effDomainName env chain, version := v, chainId := chain.chainId
      verifyingContract := env.CONTRACT_ADDR } shortLayout
    { toAddr := toAddr, tier := tierNum, orderHash := idFn oid
      tokenURI := if shortLayout.includeTokenURI then tokenURI else none }
  rw [hnone] at hsome
  exact absurd hsome (by decide)

/-- With a signer that accepts every combination, the collected layout flags
are, for each candidate version in order, the attempted layout order. -/
theorem collectCandidates_flags (env : Env) (chain : Chain) (signer : Signer)
    (idFn : String → String) (tokenURI : Option String) (toAddr : String)
    (tierNum : Option Int) (oid : String)
    (hsig : ∀ d l vv, (signer.sign d l vv).isSome = true) :
    ((collectCandidates env chain signer idFn tokenURI toAddr tierNum oid).map
        fun c => c.includeTokenURI)
      = ((versionList env).flatMap fun _ =>
          (layoutsFor (uriPresent tokenURI)).map Layout.includeTokenURI) := by
  unfold collectCandidates
  rw [List.map_flatMap]
  have hinner : ∀ v : String,
      (((layoutsFor (uriPresent tokenURI)).filterMap fun layout =>
          attempt env chain signer toAddr tierNum (idFn oid) tokenURI
            (effDomainName env chain) v layout).map fun c => c.includeTokenURI)
        = (layoutsFor (uriPresent tokenURI)).map Layout.includeTokenURI := by
    intro v
    generalize layoutsFor (uriPresent tokenURI) = ls
    induction ls with
    | nil => rfl
    | cons l ls ih =>
      obtain ⟨sig, hs⟩ := Option.isSome_iff_exists.mp (hsig
        { name := effDomainName env chain, version := v, chainId := chain.chainId
          verifyingContract := env.CONTRACT_ADDR } l
        { toAddr := toAddr, tier := tierNum, orderHash := idFn oid
          tokenURI := if l.includeTokenURI then tokenURI else none })
      have ha : attempt env chain signer toAddr tierNum (idFn oid) tokenURI
          (effDomainName env chain) v l
          = some { v := sig.v, r := sig.r, s := sig.s, orderHash := idFn oid
                   tier := tierNum, domainName := effDomainName env chain
                   domainVersion := v, chainId := chain.chainId
                   signerAddress := signer.address
                   includeTokenURI := l.includeTokenURI } := by
        simp [attempt, hs]
      simp [List.filterMap_cons, ha, ih]
  simp only [hinner]

/-- De-duplication of an override in front of the three pairwise distinct
fallback versions keeps the override first and drops its later duplicate. -/
theorem dedup_override (v : String) :
    dedup (v :: ["1", "0", "2"]) = v :: (["1", "0", "2"].filter fun x => x ≠ v) := by
  unfold dedup
  by_cases h1 : "1" = v <;> by_cases h0 : "0" = v <;> by_cases h2 : "2" = v <;>
    simp_all [dedupAux, List.filter]

/-- C3: for every configuration the candidate domain-version list is the
configured override (when present and non-empty after trimming) followed by
the fixed fallback sequence "1", "0", "2", de-duplicated preserving
first-seen order; with no usable override it is exactly ["1", "0", "2"]. -/
theorem C3_theorem (env : Env) :
    (env.DOMAIN_VERSION = none → versionList env = ["1", "0", "2"]) ∧
    (∀ s, env.DOMAIN_VERSION = some s → jsTrim s = "" →
      versionList env = ["1", "0", "2"]) ∧
    (∀ s, env.DOMAIN_VERSION = some s → jsTrim s ≠ "" →
      versionList env = jsTrim s :: (["1", "0", "2"].filter fun x => x ≠ jsTrim s)) := by
  refine ⟨?_, ?_, ?_⟩
  · intro h
    simp [versionList, envVersion, trimOpt, nonEmptyOpt, h, dedup, dedupAux]
  · intro s hs ht
    by_cases hse : s = ""
    · simp [versionList, envVersion, trimOpt, nonEmptyOpt, hs, hse, dedup, dedupAux]
    · simp [versionList, envVersion, trimOpt, nonEmptyOpt, hs, hse, ht, dedup, dedupAux]
  · intro s hs ht
    have hse : s ≠ "" := by
      intro he
      apply ht
      rw [he]
      decide
    have hstep : versionList env = dedup (jsTrim s :: ["1", "0", "2"]) := by
      simp [versionList, envVersion, trimOpt, nonEmptyOpt, hs, hse, ht, dedup]
    rw [hstep, dedup_override]

/-- C4: tier resolution on the verified-purchase path: a positive numeric hint
wins, otherwise the sku is used; the configured offset is added and the result
is clamped up to the configured minimum; in particular sku 5 with offset 0 and
minimum 1 gives 5, sku 5 with offset 2 gives 7, and sku 1 with minimum 3 is
clamped to 3. -/
theorem C4_theorem (hint : Option Int) (sku off mt : Int) :
    (hint = none → resolveTier hint sku off mt = max mt (sku + off)) ∧
    (∀ h, hint = some h → h ≤ 0 → resolveTier hint sku off mt = max mt (sku + off)) ∧
    (∀ h, hint = some h → 0 < h → resolveTier hint sku off mt = max mt (h + off)) ∧
    resolveTier none 5 0 1 = 5 ∧ resolveTier none 5 2 1 = 7 ∧ resolveTier none 1 0 3 = 3 := by
  have hmax : ∀ a b : Int, (if a < b then b else a) = max b a := by
    intro a b
    rcases lt_or_ge a b with hlt | hge
    · rw [if_pos hlt, max_eq_left hlt.le]
    · rw [if_neg (not_lt.mpr hge), max_eq_right hge]
  refine ⟨?_, ?_, ?_, by decide, by decide, by decide⟩
  · intro h
    subst h
    simp only [resolveTier, Option.getD_some]
    exact hmax _ _
  · intro h hh hle
    subst hh
    simp only [resolveTier, if_pos hle, Option.getD_some]
    exact hmax _ _
  · intro h hh hpos
    subst hh
    simp only [resolveTier, if_neg (not_le.mpr hpos), Option.getD_some]
    exact hmax _ _

/-- C1 counterexample: with no token URI supplied the Candidate Signer still
attempts the extended layout — the attempted layout list is short-then-
extended rather than short-only, and on a concrete request without a token
URI an extended-layout candidate is in fact produced. -/
theorem C1_counterexample :
    layoutsFor false = [shortLayout, extendedLayout] ∧
    layoutsFor false ≠ [shortLayout] ∧
    ((responseCandidates (handler baseEnv baseChain allSigner allAddr hashFn
        reqNoURI).fst).any fun c => c.includeTokenURI) = true := by
  exact ⟨rfl, by decide, by decide⟩

/-- C1 (amended): the attempted layout order is determined by whether a
non-empty tokenURI string was supplied — extended first then short when
present, and short first then extended (both are still attempted) when
absent; shown by the per-version layout flags of the candidates a
fully-accepting signer yields. -/
theorem C1_theorem (env : Env) (chain : Chain) (signer : Signer) (idFn : String → String)
    (toAddr : String) (tierNum : Option Int) (oid : String) (buyer : Option String)
    (skuId : Option Int) (trace0 : List NetCall) (uri : String)
    (hsig : ∀ d l vv, (signer.sign d l vv).isSome = true) :
    ((responseCandidates (signPhase env chain signer idFn (some uri) toAddr tierNum
        (some oid) buyer skuId trace0).fst).map fun c => c.includeTokenURI)
      = ((versionList env).flatMap fun _ =>
          if 0 < uri.length then [true, false] else [false, true]) ∧
    ((responseCandidates (signPhase env chain signer idFn none toAddr tierNum
        (some oid) buyer skuId trace0).fst).map fun c => c.includeTokenURI)
      = ((versionList env).flatMap fun _ => [false, true]) := by
  have hok : ∀ tokenURI : Option String,
      responseCandidates (signPhase env chain signer idFn tokenURI toAddr tierNum
        (some oid) buyer skuId trace0).fst
        = collectCandidates env chain signer idFn tokenURI toAddr tierNum oid := by
    intro tokenURI
    rw [signPhase_some, if_neg fun h0 =>
      collectCandidates_ne_nil env chain signer idFn tokenURI toAddr tierNum oid hsig
        (List.length_eq_zero.mp h0)]
    rfl
  constructor
  · rw [hok, collectCandidates_flags env chain signer idFn (some uri) toAddr tierNum oid hsig]
    by_cases hu : 0 < uri.length
    · have hp : uriPresent (some uri) = true := by simp [uriPresent, hu]
      simp only [hp, if_pos hu]
      rfl
    · have hp : uriPresent (some uri) = false := by simp [uriPresent, hu]
      simp only [hp, if_neg hu]
      rfl
  · rw [hok, collectCandidates_flags env chain signer idFn none toAddr tierNum oid hsig]
    rfl

/-- C1 witness: the amended layout-order statement at a concrete environment,
chain, signer and request, with the signer hypothesis discharged. -/
theorem C1_witness :
    (∀ d l vv, (allSigner.sign d l vv).isSome = true) ∧
    (((responseCandidates (signPhase baseEnv baseChain allSigner hashFn (some "ipfs-x")
        "0xbuyer" (some 3) (some "ord1") none none []).fst).map fun c => c.includeTokenURI)
      = ((versionList baseEnv).flatMap fun _ =>
          if 0 < ("ipfs-x" : String).length then [true, false] else [false, true]) ∧
     ((responseCandidates (signPhase baseEnv baseChain allSigner hashFn none
        "0xbuyer" (some 3) (some "ord1") none none []).fst).map fun c => c.includeTokenURI)
      = ((versionList baseEnv).flatMap fun _ => [false, true])) :=
  ⟨fun _ _ _ => rfl,
   C1_theorem baseEnv baseChain allSigner hashFn "0xbuyer" (some 3) "ord1" none none []
     "ipfs-x" fun _ _ _ => rfl⟩

/-- C2: once candidate signing is reached, the NoSignatureCandidates error
(HTTP 500) is returned if and only if every version × layout attempt fails;
every successful attempt is collected into the success response (no early
stop); and the candidate list never exceeds versions × 2 entries (so 3
versions give at most 6). -/
theorem C2_theorem (env : Env) (chain : Chain) (signer : Signer) (idFn : String → String)
    (tokenURI : Option String) (toAddr : String) (tierNum : Option Int) (oid : String)
    (buyer : Option String) (skuId : Option Int) (trace0 : List NetCall) :
    ((signPhase env chain signer idFn tokenURI toAddr tierNum (some oid) buyer skuId
        trace0).fst = Response.error "no_signature_candidates" 500 ↔
      ∀ v ∈ versionList env, ∀ layout ∈ layoutsFor (uriPresent tokenURI),
        attempt env chain signer toAddr tierNum (idFn oid) tokenURI
          (effDomainName env chain) v layout = none) ∧
    (∀ v ∈ versionList env, ∀ layout ∈ layoutsFor (uriPresent tokenURI), ∀ c,
      attempt env chain signer toAddr tierNum (idFn oid) tokenURI
          (effDomainName env chain) v layout = some c →
      ∃ cs, (signPhase env chain signer idFn tokenURI toAddr tierNum (some oid) buyer skuId
        trace0).fst = Response.ok cs buyer skuId ∧ c ∈ cs) ∧
    (responseCandidates (signPhase env chain signer idFn tokenURI toAddr tierNum (some oid)
      buyer skuId trace0).fst).length ≤ (versionList env).length * 2 := by
  refine ⟨?_, ?_, ?_⟩
  · rw [signPhase_some]
    by_cases h : (collectCandidates env chain signer idFn tokenURI toAddr tierNum oid).length = 0
    · rw [if_pos h]
      constructor
      · intro _
        exact (collectCandidates_eq_nil_iff env chain signer idFn tokenURI toAddr
          tierNum oid).mp (List.length_eq_zero.mp h)
      · intro _
        rfl
    · rw [if_neg h]
      constructor
      · intro he
        exact absurd he (by simp)
      · intro hall
        exact absurd (List.length_eq_zero.mpr ((collectCandidates_eq_nil_iff env chain signer
          idFn tokenURI toAddr tierNum oid).mpr hall)) h
  · intro v hv layout hl c hc
    have hmem := collectCandidates_mem_of_attempt hv hl hc
    have hne : (collectCandidates env chain signer idFn tokenURI toAddr tierNum oid).length ≠ 0 := by
      intro h0
      rw [List.length_eq_zero.mp h0] at hmem
      exact absurd hmem (List.not_mem_nil c)
    rw [signPhase_some, if_neg hne]
    exact ⟨_, rfl, hmem⟩
  · rw [signPhase_some]
    by_cases h : (collectCandidates env chain signer idFn tokenURI toAddr tierNum oid).length = 0
    · rw [if_pos h]
      simp [responseCandidates]
    · rw [if_neg h]
      simpa [responseCandidates] using
        collectCandidates_length_le env chain signer idFn tokenURI toAddr tierNum oid

/-- C5: when the decoded purchase event's buyer differs case-insensitively
from the requested recipient, the handler returns the wallet-mismatch error
with HTTP 400 and never a success response with signatures. -/
theorem C5_theorem (env : Env) (chain : Chain) (signer : Signer) (isAddress : String → Bool)
    (idFn : String → String) (req : Request) (toAddr tx : String) (receipt : Receipt)
    (ev : ParsedEvent)
    (h1 : req.toAddr = some toAddr) (h2 : toAddr ≠ "") (h3 : isAddress toAddr = true)
    (h4 : nonEmptyOpt req.txHash = some tx)
    (h5 : chain.getTransactionReceipt tx = some receipt) (h6 : receipt.status = 1)
    (h7 : findPurchased chain.parseLog env.STORE_ADDR receipt.logs = some ev)
    (h8 : jsLower ev.buyer ≠ jsLower toAddr) :
    (handler env chain signer isAddress idFn req).fst
      = Response.error "Wallet mismatch: tx buyer != connected wallet" 400 ∧
    ∀ cs b k, (handler env chain signer isAddress idFn req).fst ≠ Response.ok cs b k := by
  have hmain : (handler env chain signer isAddress idFn req).fst
      = Response.error "Wallet mismatch: tx buyer != connected wallet" 400 := by
    simp [handler, h1, h2, h3, h4, h5, h6, h7, h8]
  refine ⟨hmain, ?_⟩
  intro cs b k hok
  rw [hmain] at hok
  exact absurd hok (by simp)

/-- C5 witness: concrete mismatching purchase — the event buyer `0xEve`
differs from the requested `0xbuyer` and the handler answers 400. -/
theorem C5_witness :
    (reqTx.toAddr = some "0xbuyer" ∧ ("0xbuyer" : String) ≠ "" ∧ allAddr "0xbuyer" = true ∧
     nonEmptyOpt reqTx.txHash = some "0xtx" ∧
     chainWrongBuyer.getTransactionReceipt "0xtx" = some okReceipt ∧
     okReceipt.status = 1 ∧
     findPurchased chainWrongBuyer.parseLog baseEnv.STORE_ADDR okReceipt.logs
       = some wrongEvent ∧
     jsLower wrongEvent.buyer ≠ jsLower "0xbuyer") ∧
    (handler baseEnv chainWrongBuyer allSigner allAddr hashFn reqTx).fst
      = Response.error "Wallet mismatch: tx buyer != connected wallet" 400 :=
  ⟨⟨rfl, by decide, rfl, by decide, by decide, rfl, by decide, by decide⟩,
   (C5_theorem baseEnv chainWrongBuyer allSigner allAddr hashFn reqTx "0xbuyer" "0xtx"
     okReceipt wrongEvent rfl (by decide) rfl (by decide) (by decide) rfl (by decide)
     (by decide)).1⟩

/-- C6 counterexample: the two failure modes are not distinct errors — an
absent receipt and a failed-status receipt both yield the same error string
with the same status 400. -/
theorem C6_counterexample :
    (handler baseEnv chainNoReceipt allSigner allAddr hashFn reqTx).fst
      = Response.error "Invalid or failed transaction" 400 ∧
    (handler baseEnv chainFailedTx allSigner allAddr hashFn reqTx).fst
      = Response.error "Invalid or failed transaction" 400 := by
  exact ⟨by decide, by decide⟩

/-- C6 (amended): when the receipt is absent, and likewise when it carries a
non-success status, the handler fails with the single shared error message
"Invalid or failed transaction" (HTTP 400); in the failed-status case it
never proceeds to a signed response. -/
theorem C6_theorem (env : Env) (chain : Chain) (signer : Signer) (isAddress : String → Bool)
    (idFn : String → String) (req : Request) (toAddr tx : String)
    (h1 : req.toAddr = some toAddr) (h2 : toAddr ≠ "") (h3 : isAddress toAddr = true)
    (h4 : nonEmptyOpt req.txHash = some tx) :
    (chain.getTransactionReceipt tx = none →
      (handler env chain signer isAddress idFn req).fst
        = Response.error "Invalid or failed transaction" 400) ∧
    (∀ rc, chain.getTransactionReceipt tx = some rc → rc.status ≠ 1 →
      (handler env chain signer isAddress idFn req).fst
        = Response.error "Invalid or failed transaction" 400 ∧
      ∀ cs b k, (handler env chain signer isAddress idFn req).fst ≠ Response.ok cs b k) := by
  constructor
  · intro h5
    simp [handler, h1, h2, h3, h4, h5]
  · intro rc h5 h6
    have hmain : (handler env chain signer isAddress idFn req).fst
        = Response.error "Invalid or failed transaction" 400 := by
      simp [handler, h1, h2, h3, h4, h5, h6]
    refine ⟨hmain, ?_⟩
    intro cs b k hok
    rw [hmain] at hok
    exact absurd hok (by simp)

/-- C6 witness: the amended statement at a chain whose receipts carry failed
status 0. -/
theorem C6_witness :
    (reqTx.toAddr = some "0xbuyer" ∧ ("0xbuyer" : String) ≠ "" ∧ allAddr "0xbuyer" = true ∧
     nonEmptyOpt reqTx.txHash = some "0xtx" ∧
     chainFailedTx.getTransactionReceipt "0xtx" = some failedReceipt ∧
     failedReceipt.status ≠ 1) ∧
    (handler baseEnv chainFailedTx allSigner allAddr hashFn reqTx).fst
      = Response.error "Invalid or failed transaction" 400 :=
  ⟨⟨rfl, by decide, rfl, by decide, rfl, by decide⟩,
   ((C6_theorem baseEnv chainFailedTx allSigner allAddr hashFn reqTx "0xbuyer" "0xtx" rfl
      (by decide) rfl (by decide)).2 failedReceipt rfl (by decide)).1⟩

/-- C7: a syntactically invalid recipient address is rejected with the 400
invalid-address error and an empty network-call trace — before the receipt
fetch, the contract name() read or the network id read could happen. -/
theorem C7_theorem (env : Env) (chain : Chain) (signer : Signer) (isAddress : String → Bool)
    (idFn : String → String) (req : Request) (toAddr : String)
    (h1 : req.toAddr = some toAddr) (h2 : toAddr ≠ "") (h3 : isAddress toAddr = false) :
    handler env chain signer isAddress idFn req
      = (Response.error "Invalid address" 400, []) := by
  simp [handler, h1, h2, h3]

/-- C7 witness: a concrete request whose recipient the validator rejects is
answered 400 with no network call recorded. -/
theorem C7_witness :
    (reqBadAddr.toAddr = some "bogus" ∧ ("bogus" : String) ≠ "" ∧
     oneAddr "bogus" = false) ∧
    handler baseEnv baseChain allSigner oneAddr hashFn reqBadAddr
      = (Response.error "Invalid address" 400, []) :=
  ⟨⟨rfl, by decide, by decide⟩,
   C7_theorem baseEnv baseChain allSigner oneAddr hashFn reqBadAddr "bogus" rfl (by decide)
     (by decide)⟩

/-- C8 counterexample: a request with an orderId, no txHash and no tier at
all is not rejected as a validation error — with an accepting signer it
succeeds, and even with an all-failing signer it reaches the signing stage
and fails with the signing-stage 500, never a tier validation 400. -/
theorem C8_counterexample :
    (reqNoTier.txHash = none ∧ reqNoTier.tierNum = none) ∧
    isOk (handler baseEnv baseChain allSigner allAddr hashFn reqNoTier).fst = true ∧
    (handler baseEnv baseChain noSigner allAddr hashFn reqNoTier).fst
      = Response.error "no_signature_candidates" 500 := by
  exact ⟨⟨rfl, rfl⟩, by decide, by decide⟩

/-- C8 (amended): with no txHash the handler performs no tier validation —
once the recipient is valid and an orderId is present it never returns any
400, and whatever tier value the caller supplied (including none) is passed
through unchanged into every produced candidate. -/
theorem C8_theorem (env : Env) (chain : Chain) (signer : Signer) (isAddress : String → Bool)
    (idFn : String → String) (req : Request) (toAddr oid : String)
    (h1 : req.toAddr = some toAddr) (h2 : toAddr ≠ "") (h3 : isAddress toAddr = true)
    (h4 : nonEmptyOpt req.txHash = none) (h5 : nonEmptyOpt req.orderId = some oid) :
    (∀ code, (handler env chain signer isAddress idFn req).fst ≠ Response.error code 400) ∧
    (∀ cs b k, (handler env chain signer isAddress idFn req).fst = Response.ok cs b k →
      ∀ c ∈ cs, c.tier = req.tierNum) := by
  have hred : (handler env chain signer isAddress idFn req).fst
      = (signPhase env chain signer idFn req.tokenURI toAddr req.tierNum (some oid)
          none none []).fst := by
    simp [handler, h1, h2, h3, h4, h5]
  constructor
  · intro code hcontr
    rw [hred, signPhase_some] at hcontr
    by_cases h : (collectCandidates env chain signer idFn req.tokenURI toAddr
        req.tierNum oid).length = 0
    · rw [if_pos h] at hcontr
      exact absurd hcontr (by simp)
    · rw [if_neg h] at hcontr
      exact absurd hcontr (by simp)
  · intro cs b k hok c hc
    rw [hred] at hok
    obtain ⟨oid2, ho2, hcs, _, _⟩ := signPhase_ok_collect hok
    injection ho2 with he
    subst he
    subst hcs
    exact (collectCandidates_mem hc).2.1

/-- C8 witness: the amended pass-through statement at a concrete request
with an orderId, no txHash and no tier. -/
theorem C8_witness :
    (reqNoTier.toAddr = some "0xbuyer" ∧ ("0xbuyer" : String) ≠ "" ∧
     allAddr "0xbuyer" = true ∧ nonEmptyOpt reqNoTier.txHash = none ∧
     nonEmptyOpt reqNoTier.orderId = some "ord1") ∧
    ((∀ code, (handler baseEnv baseChain allSigner allAddr hashFn reqNoTier).fst
        ≠ Response.error code 400) ∧
     (∀ cs b k, (handler baseEnv baseChain allSigner allAddr hashFn reqNoTier).fst
        = Response.ok cs b k → ∀ c ∈ cs, c.tier = reqNoTier.tierNum)) :=
  ⟨⟨rfl, by decide, rfl, rfl, by decide⟩,
   C8_theorem baseEnv baseChain allSigner allAddr hashFn reqNoTier "0xbuyer" "ord1" rfl
     (by decide) rfl rfl (by decide)⟩

/-- C9: on the verified-purchase path the txHash overwrites any
caller-supplied orderId, so every produced candidate's orderHash is the
digest of the txHash string. -/
theorem C9_theorem (env : Env) (chain : Chain) (signer : Signer) (isAddress : String → Bool)
    (idFn : String → String) (req : Request) (toAddr tx : String) (receipt : Receipt)
    (ev : ParsedEvent)
    (h1 : req.toAddr = some toAddr) (h2 : toAddr ≠ "") (h3 : isAddress toAddr = true)
    (h4 : nonEmptyOpt req.txHash = some tx)
    (h5 : chain.getTransactionReceipt tx = some receipt) (h6 : receipt.status = 1)
    (h7 : findPurchased chain.parseLog env.STORE_ADDR receipt.logs = some ev)
    (h8 : jsLower ev.buyer = jsLower toAddr) :
    ∀ cs b k, (handler env chain signer isAddress idFn req).fst = Response.ok cs b k →
      ∀ c ∈ cs, c.orderHash = idFn tx := by
  intro cs b k hok c hc
  have hred : (handler env chain signer isAddress idFn req).fst
      = (signPhase env chain signer idFn req.tokenURI toAddr
          (some (resolveTier req.tierNum ev.skuId (env.TIER_OFFSET.getD 0)
            (env.MIN_TIER.getD 1)))
          (some tx) (some ev.buyer) (some ev.skuId) [NetCall.getReceipt tx]).fst := by
    simp [handler, h1, h2, h3, h4, h5, h6, h7, h8]
  rw [hred] at hok
  obtain ⟨oid2, ho2, hcs, _, _⟩ := signPhase_ok_collect hok
  injection ho2 with he
  subst he
  subst hcs
  exact (collectCandidates_mem hc).1

/-- C9 witness: a concrete request carrying both an orderId ("ignored") and a
txHash produces candidates hashed over the txHash. -/
theorem C9_witness :
    (reqTxWithOrder.toAddr = some "0xbuyer" ∧ ("0xbuyer" : String) ≠ "" ∧
     allAddr "0xbuyer" = true ∧ nonEmptyOpt reqTxWithOrder.txHash = some "0xtx" ∧
     baseChain.getTransactionReceipt "0xtx" = some okReceipt ∧ okReceipt.status = 1 ∧
     findPurchased baseChain.parseLog baseEnv.STORE_ADDR okReceipt.logs
       = some sampleEvent ∧
     jsLower sampleEvent.buyer = jsLower "0xbuyer") ∧
    (∀ cs b k, (handler baseEnv baseChain allSigner allAddr hashFn reqTxWithOrder).fst
        = Response.ok cs b k → ∀ c ∈ cs, c.orderHash = hashFn "0xtx") :=
  ⟨⟨rfl, by decide, rfl, by decide, by decide, rfl, by decide, by decide⟩,
   C9_theorem baseEnv baseChain allSigner allAddr hashFn reqTxWithOrder "0xbuyer" "0xtx"
     okReceipt sampleEvent rfl (by decide) rfl (by decide) (by decide) rfl (by decide)
     (by decide)⟩

/-- C10: in every success response all candidates agree on orderHash, tier,
domainName, chainId and signerAddress — entries can differ only in their
signature components, domainVersion and includeTokenURI flag. -/
theorem C10_theorem (env : Env) (chain : Chain) (signer : Signer) (isAddress : String → Bool)
    (idFn : String → String) (req : Request) (cs : List Candidate) (b : Option String)
    (k : Option Int)
    (h : (handler env chain signer isAddress idFn req).fst = Response.ok cs b k) :
    ∀ c1 ∈ cs, ∀ c2 ∈ cs,
      c1.orderHash = c2.orderHash ∧ c1.tier = c2.tier ∧ c1.domainName = c2.domainName ∧
      c1.chainId = c2.chainId ∧ c1.signerAddress = c2.signerAddress := by
  obtain ⟨toAddr, tierNum, oid, hcs⟩ := handler_ok_collect h
  subst hcs
  intro c1 hc1 c2 hc2
  obtain ⟨a1, a2, a3, a4, a5⟩ := collectCandidates_mem hc1
  obtain ⟨e1, e2, e3, e4, e5⟩ := collectCandidates_mem hc2
  exact ⟨a1.trans e1.symm, a2.trans e2.symm, a3.trans e3.symm, a4.trans e4.symm,
    a5.trans e5.symm⟩

/-- C10 witness: the shared-field invariant on the six candidates a concrete
verified purchase yields. -/
theorem C10_witness :
    ((handler baseEnv baseChain allSigner allAddr hashFn reqTx).fst
      = Response.ok (responseCandidates
          (handler baseEnv baseChain allSigner allAddr hashFn reqTx).fst)
          (some "0xBuyer" : Option String) (some (5 : Int) : Option Int)) ∧
    (∀ c1 ∈ responseCandidates (handler baseEnv baseChain allSigner allAddr hashFn reqTx).fst,
     ∀ c2 ∈ responseCandidates (handler baseEnv baseChain allSigner allAddr hashFn reqTx).fst,
      c1.orderHash = c2.orderHash ∧ c1.tier = c2.tier ∧ c1.domainName = c2.domainName ∧
      c1.chainId = c2.chainId ∧ c1.signerAddress = c2.signerAddress) :=
  ⟨by decide,
   C10_theorem baseEnv baseChain allSigner allAddr hashFn reqTx
     (responseCandidates (handler baseEnv baseChain allSigner allAddr hashFn reqTx).fst)
     (some "0xBuyer") (some (5 : Int)) (by decide)⟩

end SignClaim
